import Mathlib

/-!
# Shallow embedding of the OpenRGB C++ SDK client (`src/Client.cpp`)

The client of `src/Client.cpp` talks to an OpenRGB server over a TCP socket.
The socket itself (`own::TcpSocket`) is an external collaborator: we model it
as an oracle environment (`SocketEnv`) that supplies, in order, the results of
every socket call the client makes (receive results, send results,
blocking-mode-switch results, timeout-set results, connect results), plus an
outbound log of the message types the client sent.  A function of the client
consumes results from the front of these lists; an exhausted list yields the
failure default.  A `SockRecv.success bytes` entry carries the bytes that the
socket delivered for the requested read.

Message type codes, the 16-byte header codec and the message body codecs live
in `ProtocolMessages.hpp`, which is not part of the sources; those definitions
are modelled from the specification and are marked as such.
-/

namespace OpenRGB

/-- Result statuses of the connect operation, in the order of the C++
`ConnectStatus` enum (see the `ConnectStatusStr` table in `Client.cpp`). -/
inductive ConnectStatus where
  | Success
  | NetworkingInitFailed
  | AlreadyConnected
  | HostNotResolved
  | ConnectFailed
  | RequestVersionFailed
  | VersionNotSupported
  | SendNameFailed
  | OtherSystemError
  | UnexpectedError
deriving DecidableEq, Repr

/-- Result statuses of a request, in the order of the C++ `RequestStatus` enum
(see the `RequestStatusStr` table in `Client.cpp`). -/
inductive RequestStatus where
  | Success
  | NotConnected
  | SendRequestFailed
  | ConnectionClosed
  | NoReply
  | ReceiveError
  | InvalidReply
  | UnexpectedError
deriving DecidableEq, Repr

/-- Result statuses of a device-list freshness check, in the order of the C++
`UpdateStatus` enum (see the `UpdateStatusStr` table in `Client.cpp`). -/
inductive UpdateStatus where
  | UpToDate
  | OutOfDate
  | ConnectionClosed
  | UnexpectedMessage
  | CantRestoreSocket
  | OtherSystemError
  | UnexpectedError
deriving DecidableEq, Repr

/-- The outcome of one `TcpSocket::receive` call, as distinguished by
`Client.cpp` (`own::SocketError` values it branches on). -/
inductive SockRecv where
  | success (bytes : List Nat)
  | connectionClosed
  | timeout
  | wouldBlock
  | otherError
deriving DecidableEq, Repr

/-- The outcome of one `TcpSocket::connect` call, as distinguished by
`Client::_connect`. -/
inductive SockConnect where
  | success
  | alreadyConnected
  | networkingInitFailed
  | hostNotResolved
  | connectFailed
  | otherError
deriving DecidableEq, Repr

/-- Oracle environment for the external TCP socket: the pending results of
future socket calls, consumed front to back, plus the log of message types the
client has sent (`sentLog`). -/
structure SocketEnv where
  recvs : List SockRecv
  sends : List Bool
  blocks : List Bool
  timeouts : List Bool
  conns : List SockConnect
  sentLog : List Nat
deriving DecidableEq, Repr

/-- The mutable state of a `Client` (fields of the C++ class plus the
socket's connected flag and blocking mode, which the client owns). -/
structure ClientState where
  connected : Bool
  blocking : Bool
  outOfDate : Bool
  version : Nat
deriving DecidableEq, Repr

/-- `Client::Client`: a newly constructed client.  The constructor sets
`_negotiatedProtocolVersion = 0` and `_isDeviceListOutOfDate = true`; the fresh
socket is disconnected and in blocking mode. -/
def ClientState.init : ClientState :=
  { connected := false, blocking := true, outOfDate := true, version := 0 }

/-- Modelled from the spec: `implementedProtocolVersion` is a build-time
constant (missing header); the spec's happy-connect scenario uses version 4. -/
def implementedProtocolVersion : Nat := 4

/-! ## Message type codes

Modelled from the spec: the message table of §4.1 ("codes indicative; match
the reference server").  Only their distinctness matters to the client logic;
the numeric values follow the reference OpenRGB server.  Requests that have a
reply share the code with it (the reply codes below name the same values). -/

def REQUEST_CONTROLLER_COUNT : Nat := 0
def REQUEST_CONTROLLER_DATA : Nat := 1
def REQUEST_PROTOCOL_VERSION : Nat := 40
def SET_CLIENT_NAME : Nat := 50
def DEVICE_LIST_UPDATED : Nat := 100
def REQUEST_PROFILE_LIST : Nat := 150
def REQUEST_SAVE_PROFILE : Nat := 151
def REQUEST_LOAD_PROFILE : Nat := 152
def REQUEST_DELETE_PROFILE : Nat := 153
def RESIZE_ZONE : Nat := 1000
def UPDATE_LEDS : Nat := 1050
def UPDATE_ZONE_LEDS : Nat := 1051
def UPDATE_SINGLE_LED : Nat := 1052
def SET_CUSTOM_MODE : Nat := 1100
def UPDATE_MODE : Nat := 1101
def SAVE_MODE : Nat := 1102

def REPLY_CONTROLLER_COUNT : Nat := REQUEST_CONTROLLER_COUNT
def REPLY_CONTROLLER_DATA : Nat := REQUEST_CONTROLLER_DATA
def REPLY_PROTOCOL_VERSION : Nat := REQUEST_PROTOCOL_VERSION
def REPLY_PROFILE_LIST : Nat := REQUEST_PROFILE_LIST

/-! ## Header codec

Modelled from the spec (§3, §6): a frame header is a fixed 16 bytes — the
magic `"ORGB"` (4 bytes) followed by three little-endian `u32`s: device index,
message type, body size.  Deserialization fails on a magic mismatch or a
buffer that is not exactly 16 bytes. -/

/-- The ASCII bytes of the magic string `"ORGB"`. -/
def magicORGB : List Nat := [0x4F, 0x52, 0x47, 0x42]

/-- Reassemble a little-endian `u32` from its four bytes. -/
def readU32LE (b0 b1 b2 b3 : Nat) : Nat :=
  b0 + 256 * b1 + 65536 * b2 + 16777216 * b3

/-- The four little-endian bytes of `n % 2^32`. -/
def u32le (n : Nat) : List Nat :=
  [n % 256, n / 256 % 256, n / 65536 % 256, n / 16777216 % 256]

/-- A parsed frame header (the magic has already been validated). -/
structure Header where
  device_index : Nat
  message_type : Nat
  message_size : Nat
deriving DecidableEq, Repr

/-- Modelled from the spec: parse a 16-byte header buffer; `none` when the
buffer is not exactly 16 bytes or the magic is not `"ORGB"`. -/
def Header.deserialize (bytes : List Nat) : Option Header :=
  match bytes with
  | [m0, m1, m2, m3, a0, a1, a2, a3, t0, t1, t2, t3, s0, s1, s2, s3] =>
      if [m0, m1, m2, m3] = magicORGB then
        some ⟨readU32LE a0 a1 a2 a3, readU32LE t0 t1 t2 t3, readU32LE s0 s1 s2 s3⟩
      else
        none
  | _ => none

/-- The 16 bytes of a header with the given device index, message type and
body size (used to build inbound frames in theorems). -/
def mkHeader (dev ty sz : Nat) : List Nat :=
  magicORGB ++ u32le dev ++ u32le ty ++ u32le sz

/-! ## Body codecs

Modelled from the spec; the C++ codecs live in the missing
`ProtocolMessages.hpp`. -/

/-- Modelled from the spec: the body of `REPLY_PROTOCOL_VERSION` and of
`REPLY_CONTROLLER_COUNT` is a single little-endian `u32`. -/
def decodeU32Body (bytes : List Nat) : Option Nat :=
  match bytes with
  | [b0, b1, b2, b3] => some (readU32LE b0 b1 b2 b3)
  | _ => none

/-- Modelled from the spec: the body of `REPLY_CONTROLLER_DATA` is a
`u32`-size-prefixed device record; the prefix covers the record's remaining
bytes.  The decoded device is modelled as the record's bytes. -/
def decodeControllerData (bytes : List Nat) : Option (List Nat) :=
  match bytes with
  | s0 :: s1 :: s2 :: s3 :: rest =>
      if readU32LE s0 s1 s2 s3 = rest.length then some rest else none
  | _ => none

/-- Modelled from the spec (§6): one string is a `u16` length (including the
terminating NUL) followed by that many bytes, the last of which must be 0. -/
def decodeString (bytes : List Nat) : Option (List Nat × List Nat) :=
  match bytes with
  | b0 :: b1 :: rest =>
      let len := readU32LE b0 b1 0 0
      if 0 < len ∧ len ≤ rest.length ∧ (rest.take len).getLast? = some 0 then
        some ((rest.take len).dropLast, rest.drop len)
      else
        none
  | _ => none

/-- Modelled from the spec (§6): a string list is a `u16` count followed by
that many strings; `count` also bounds the recursion. -/
def decodeStrings (count : Nat) (bytes : List Nat) : Option (List (List Nat)) :=
  match count with
  | 0 => if bytes = [] then some [] else none
  | n + 1 =>
      match decodeString bytes with
      | none => none
      | some (s, rest) =>
          match decodeStrings n rest with
          | none => none
          | some ss => some (s :: ss)

/-- Modelled from the spec: the body of `REPLY_PROFILE_LIST` is a `u16` count
of profile names followed by the names. -/
def decodeProfileList (bytes : List Nat) : Option (List (List Nat)) :=
  match bytes with
  | b0 :: b1 :: rest => decodeStrings (readU32LE b0 b1 0 0) rest
  | _ => none

/-! ## Socket primitives

Each primitive consumes the front of the corresponding oracle list; an
exhausted oracle yields the failure default. -/

/-- One `TcpSocket::receive` call: take the next receive result. -/
def SocketEnv.recvStep (env : SocketEnv) : SockRecv × SocketEnv :=
  (env.recvs.headD .otherError, { env with recvs := env.recvs.tail })

/-- `Client::sendMessage<M>`: serialize and send one message of type
`msgType`; the result of the socket send comes from the oracle, and the sent
type is appended to the outbound log. -/
def sendMessage (msgType : Nat) (env : SocketEnv) : Bool × SocketEnv :=
  (env.sends.headD false,
   { env with sends := env.sends.tail, sentLog := env.sentLog ++ [msgType] })

/-- One `TcpSocket::setBlockingMode b` call: on success the socket's mode
becomes `b`, on failure it is left unchanged. -/
def setBlockingMode (b : Bool) (c : ClientState) (env : SocketEnv) :
    Bool × ClientState × SocketEnv :=
  let ok := env.blocks.headD false
  (ok, if ok then { c with blocking := b } else c,
   { env with blocks := env.blocks.tail })

/-- One `TcpSocket::setTimeout` call. -/
def SocketEnv.timeoutStep (env : SocketEnv) : Bool × SocketEnv :=
  (env.timeouts.headD false, { env with timeouts := env.timeouts.tail })

/-- One `TcpSocket::connect` call. -/
def SocketEnv.connStep (env : SocketEnv) : SockConnect × SocketEnv :=
  (env.conns.headD .connectFailed, { env with conns := env.conns.tail })

/-! ## `Client::awaitMessage` -/

/-- How `Client::awaitMessage` maps a failed receive to a `RequestStatus`:
`ConnectionClosed` and `Timeout` are distinguished, everything else is
`ReceiveError`. -/
def recvErrorStatus : SockRecv → RequestStatus
  | .connectionClosed => .ConnectionClosed
  | .timeout => .NoReply
  | _ => .ReceiveError

/-- The result of `Client::awaitMessage<M>` (the C++ `RecvResult<M>`), plus
the client state and socket environment it left behind.  `message` is `some`
exactly on `Success`. -/
structure AwaitResult (α : Type) where
  status : RequestStatus
  message : Option α
  state : ClientState
  env : SocketEnv
deriving DecidableEq, Repr

/-- The receive loop of `Client::awaitMessage`, recursing over the pending
receive results.  Each iteration reads one 16-byte header; a
`DEVICE_LIST_UPDATED` header sets the out-of-date flag and loops (consuming no
body); a header of the expected type is followed by one body read and the
body decode; any other valid type, or an unparsable header, is
`InvalidReply`.  Returns the status, the decoded message, the out-of-date
flag, and the unconsumed receive results. -/
def awaitLoop (expectedType : Nat) (dec : List Nat → Option α) (outOfDate : Bool) :
    List SockRecv → RequestStatus × Option α × Bool × List SockRecv
  | [] => (.ReceiveError, none, outOfDate, [])
  | r :: rest =>
    match r with
    | .success headerBytes =>
      match Header.deserialize headerBytes with
      | none => (.InvalidReply, none, outOfDate, rest)
      | some header =>
        if header.message_type = DEVICE_LIST_UPDATED then
          awaitLoop expectedType dec true rest
        else if header.message_type ≠ expectedType then
          (.InvalidReply, none, outOfDate, rest)
        else
          match rest with
          | [] => (.ReceiveError, none, outOfDate, [])
          | b :: rest2 =>
            match b with
            | .success bodyBytes =>
              match dec bodyBytes with
              | none => (.InvalidReply, none, outOfDate, rest2)
              | some v => (.Success, some v, outOfDate, rest2)
            | e => (recvErrorStatus e, none, outOfDate, rest2)
    | e => (recvErrorStatus e, none, outOfDate, rest)

/-- `Client::awaitMessage<M>` for a message type with code `expectedType` and
body decoder `dec`: run the receive loop starting from the client's current
out-of-date flag. -/
def awaitMessage (expectedType : Nat) (dec : List Nat → Option α)
    (c : ClientState) (env : SocketEnv) : AwaitResult α :=
  let r := awaitLoop expectedType dec c.outOfDate env.recvs
  ⟨r.1, r.2.1, { c with outOfDate := r.2.2.1 }, { env with recvs := r.2.2.2 }⟩

/-! ## Argument records of the public API

Only the fields `Client.cpp` actually reads are modelled. -/

/-- An LED: its parent-device index and its own index. -/
structure LED where
  parentIdx : Nat
  idx : Nat
deriving DecidableEq, Repr

/-- A zone: its parent-device index, its own index, and its LED count. -/
structure Zone where
  parentIdx : Nat
  idx : Nat
  leds_count : Nat
deriving DecidableEq, Repr

/-- A mode: its own index (the mode body sent with it is not modelled,
`sendMessage` logs only the message type). -/
structure Mode where
  idx : Nat
deriving DecidableEq, Repr

/-- A device: its own index and its LED count. -/
structure Device where
  idx : Nat
  ledsCount : Nat
deriving DecidableEq, Repr

/-! ## Result records of the public API -/

/-- Status-only result of a mutating operation, with the resulting client
state and socket environment. -/
structure OpResult where
  status : RequestStatus
  state : ClientState
  env : SocketEnv
deriving DecidableEq, Repr

/-- The C++ `DeviceListResult`, with the resulting state and environment.
A device is modelled as its record's bytes. -/
structure ListResult where
  status : RequestStatus
  devices : List (List Nat)
  state : ClientState
  env : SocketEnv
deriving DecidableEq, Repr

/-- The C++ `DeviceCountResult`, with the resulting state and environment. -/
structure CountResult where
  status : RequestStatus
  count : Nat
  state : ClientState
  env : SocketEnv
deriving DecidableEq, Repr

/-- The C++ `DeviceInfoResult`, with the resulting state and environment. -/
structure InfoResult where
  status : RequestStatus
  device : Option (List Nat)
  state : ClientState
  env : SocketEnv
deriving DecidableEq, Repr

/-- The C++ `ProfileListResult`, with the resulting state and environment. -/
structure ProfilesResult where
  status : RequestStatus
  profiles : List (List Nat)
  state : ClientState
  env : SocketEnv
deriving DecidableEq, Repr

/-- Result of `connect`, with the resulting state and environment. -/
structure ConnectResult where
  status : ConnectStatus
  state : ClientState
  env : SocketEnv
deriving DecidableEq, Repr

/-- Result of `checkForDeviceUpdates`, with the resulting state and
environment. -/
structure UpdateResult where
  status : UpdateStatus
  state : ClientState
  env : SocketEnv
deriving DecidableEq, Repr

/-- Result of `setTimeout`, with the resulting state and environment. -/
structure TimeoutResult where
  ok : Bool
  state : ClientState
  env : SocketEnv
deriving DecidableEq, Repr

namespace Client

/-- `TcpSocket::disconnect` as it affects the session: the socket becomes
disconnected. -/
def socketDisconnect (c : ClientState) : ClientState :=
  { c with connected := false }

/-- How `Client::_connect` maps a failed `TcpSocket::connect` to a
`ConnectStatus` (the `switch` at the top of `_connect`). -/
def connectFailStatus : SockConnect → ConnectStatus
  | .alreadyConnected => .AlreadyConnected
  | .networkingInitFailed => .NetworkingInitFailed
  | .hostNotResolved => .HostNotResolved
  | .connectFailed => .ConnectFailed
  | _ => .OtherSystemError

/-- `Client::_connect`: TCP connect, set the 500 ms default timeout (result
ignored), send `REQUEST_PROTOCOL_VERSION`, await `REPLY_PROTOCOL_VERSION`,
reject server version 0, store the negotiated version, send
`SET_CLIENT_NAME`, mark the device list out of date.  Every failure after the
TCP connect closes the socket before returning. -/
def _connect (c : ClientState) (env : SocketEnv) : ConnectResult :=
  let (res, env) := env.connStep
  match res with
  | .success =>
    let c := { c with connected := true }
    let (_, env) := env.timeoutStep
    let (okV, env) := sendMessage REQUEST_PROTOCOL_VERSION env
    if !okV then
      ⟨.RequestVersionFailed, socketDisconnect c, env⟩
    else
      let r := awaitMessage REPLY_PROTOCOL_VERSION decodeU32Body c env
      if r.status ≠ .Success then
        ⟨.RequestVersionFailed, socketDisconnect r.state, r.env⟩
      else if r.message.getD 0 = 0 then
        ⟨.VersionNotSupported, socketDisconnect r.state, r.env⟩
      else
        let c2 := { r.state with
                    version := min implementedProtocolVersion (r.message.getD 0) }
        let (okN, env2) := sendMessage SET_CLIENT_NAME r.env
        if !okN then
          ⟨.SendNameFailed, socketDisconnect c2, env2⟩
        else
          ⟨.Success, { c2 with outOfDate := true }, env2⟩
  | e => ⟨connectFailStatus e, c, env⟩

/-- `Client::_disconnect`: close the socket; the returned `Bool` tells
whether a live connection was actually torn down. -/
def _disconnect (c : ClientState) : Bool × ClientState :=
  (c.connected, socketDisconnect c)

/-- `Client::_setTimeout`: refused (returning `false`, without touching the
socket) while disconnected, because the OS socket does not exist yet. -/
def _setTimeout (c : ClientState) (env : SocketEnv) : TimeoutResult :=
  if !c.connected then ⟨false, c, env⟩
  else
    let (ok, env) := env.timeoutStep
    ⟨ok, c, env⟩

/-- The inner `for` loop of `Client::_requestDeviceList`: one
`REQUEST_CONTROLLER_DATA` / `REPLY_CONTROLLER_DATA` exchange per remaining
device, appending each received device record to the accumulator. -/
def deviceLoop (remaining : Nat) (acc : List (List Nat))
    (c : ClientState) (env : SocketEnv) :
    RequestStatus × List (List Nat) × ClientState × SocketEnv :=
  match remaining with
  | 0 => (.Success, acc, c, env)
  | n + 1 =>
    let (ok, env) := sendMessage REQUEST_CONTROLLER_DATA env
    if !ok then (.SendRequestFailed, acc, c, env)
    else
      let r := awaitMessage REPLY_CONTROLLER_DATA decodeControllerData c env
      if r.status ≠ .Success then (r.status, acc, r.state, r.env)
      else deviceLoop n (acc ++ [r.message.getD []]) r.state r.env

/-- One iteration of the `do`-`while` body of `Client::_requestDeviceList`:
clear the accumulated devices and the out-of-date bit, request the controller
count, then fetch that many device records. -/
def deviceListSweep (c : ClientState) (env : SocketEnv) :
    RequestStatus × List (List Nat) × ClientState × SocketEnv :=
  let c := { c with outOfDate := false }
  let (ok, env) := sendMessage REQUEST_CONTROLLER_COUNT env
  if !ok then (.SendRequestFailed, [], c, env)
  else
    let r := awaitMessage REPLY_CONTROLLER_COUNT decodeU32Body c env
    if r.status ≠ .Success then (r.status, [], r.state, r.env)
    else deviceLoop (r.message.getD 0) [] r.state r.env

/-- The `do`-`while` loop of `Client::_requestDeviceList`: repeat the sweep
while the out-of-date bit was set again during it.  `fuel` bounds the number
of sweeps; a sweep can only demand a restart by consuming at least one
receive result (the `DEVICE_LIST_UPDATED` frame that set the bit), so
`env.recvs.length + 1` sweeps always suffice and the fuel-exhausted branch is
unreachable from `_requestDeviceList`. -/
def deviceListLoop (fuel : Nat) (c : ClientState) (env : SocketEnv) :
    RequestStatus × List (List Nat) × ClientState × SocketEnv :=
  match fuel with
  | 0 => (.UnexpectedError, [], c, env)
  | f + 1 =>
    let (st, devs, c, env) := deviceListSweep c env
    if st ≠ .Success then (st, devs, c, env)
    else if c.outOfDate then deviceListLoop f c env
    else (.Success, devs, c, env)

/-- `Client::_requestDeviceList`: `NotConnected` while disconnected,
otherwise sweep (restarting on freshness notifications) until a sweep
finishes with the out-of-date bit still clear. -/
def _requestDeviceList (c : ClientState) (env : SocketEnv) : ListResult :=
  if !c.connected then ⟨.NotConnected, [], c, env⟩
  else
    let r := deviceListLoop (env.recvs.length + 1) c env
    ⟨r.1, r.2.1, r.2.2.1, r.2.2.2⟩

/-- `Client::_requestDeviceCount`. -/
def _requestDeviceCount (c : ClientState) (env : SocketEnv) : CountResult :=
  if !c.connected then ⟨.NotConnected, 0, c, env⟩
  else
    let (ok, env) := sendMessage REQUEST_CONTROLLER_COUNT env
    if !ok then ⟨.SendRequestFailed, 0, c, env⟩
    else
      let r := awaitMessage REPLY_CONTROLLER_COUNT decodeU32Body c env
      if r.status ≠ .Success then ⟨r.status, 0, r.state, r.env⟩
      else ⟨.Success, r.message.getD 0, r.state, r.env⟩

/-- `Client::_requestDeviceInfo`. -/
def _requestDeviceInfo (c : ClientState) (env : SocketEnv) (_deviceIdx : Nat) :
    InfoResult :=
  if !c.connected then ⟨.NotConnected, none, c, env⟩
  else
    let (ok, env) := sendMessage REQUEST_CONTROLLER_DATA env
    if !ok then ⟨.SendRequestFailed, none, c, env⟩
    else
      let r := awaitMessage REPLY_CONTROLLER_DATA decodeControllerData c env
      if r.status ≠ .Success then ⟨r.status, none, r.state, r.env⟩
      else ⟨.Success, r.message, r.state, r.env⟩

/-- The local lambda `enableBlockingAndReturn` of
`Client::checkForUpdateMessageArrival`: restore the socket to blocking mode
and pass the given status through; when the restore fails, forcibly
disconnect and return `CantRestoreSocket` instead. -/
def enableBlockingAndReturn (returnStatus : UpdateStatus) (c : ClientState)
    (env : SocketEnv) : UpdateResult :=
  let (ok2, c2, env2) := setBlockingMode true c env
  if !ok2 then ⟨.CantRestoreSocket, socketDisconnect c2, env2⟩
  else ⟨returnStatus, c2, env2⟩

/-- `Client::checkForUpdateMessageArrival`: switch the socket to non-blocking
(failure is `OtherSystemError`), try to read one header, interpret the
result, and in every interpreted case restore blocking mode through
`enableBlockingAndReturn`. -/
def checkForUpdateMessageArrival (c : ClientState) (env : SocketEnv) :
    UpdateResult :=
  let (ok, c, env) := setBlockingMode false c env
  if !ok then ⟨.OtherSystemError, c, env⟩
  else
    let (r, env) := env.recvStep
    match r with
    | .wouldBlock => enableBlockingAndReturn .UpToDate c env
    | .connectionClosed => enableBlockingAndReturn .ConnectionClosed c env
    | .timeout => enableBlockingAndReturn .OtherSystemError c env
    | .otherError => enableBlockingAndReturn .OtherSystemError c env
    | .success bytes =>
      match Header.deserialize bytes with
      | none => enableBlockingAndReturn .UnexpectedMessage c env
      | some header =>
        if header.message_type ≠ DEVICE_LIST_UPDATED then
          enableBlockingAndReturn .UnexpectedMessage c env
        else
          enableBlockingAndReturn .OutOfDate c env

/-- `Client::_checkForDeviceUpdates`: report `OutOfDate` from the cached bit
without touching the socket; otherwise probe the socket and cache a newly
discovered `OutOfDate` in the bit. -/
def _checkForDeviceUpdates (c : ClientState) (env : SocketEnv) : UpdateResult :=
  if c.outOfDate then ⟨.OutOfDate, c, env⟩
  else
    let r := checkForUpdateMessageArrival c env
    if r.status = .OutOfDate then
      ⟨r.status, { r.state with outOfDate := true }, r.env⟩
    else
      r

/-- `Client::_switchToCustomMode`: fire-and-forget `SET_CUSTOM_MODE`. -/
def _switchToCustomMode (c : ClientState) (env : SocketEnv) (_device : Device) :
    OpResult :=
  if !c.connected then ⟨.NotConnected, c, env⟩
  else
    let (ok, env) := sendMessage SET_CUSTOM_MODE env
    if !ok then ⟨.SendRequestFailed, c, env⟩
    else ⟨.Success, c, env⟩

/-- `Client::_changeMode`: fire-and-forget `UPDATE_MODE`. -/
def _changeMode (c : ClientState) (env : SocketEnv) (_device : Device)
    (_mode : Mode) : OpResult :=
  if !c.connected then ⟨.NotConnected, c, env⟩
  else
    let (ok, env) := sendMessage UPDATE_MODE env
    if !ok then ⟨.SendRequestFailed, c, env⟩
    else ⟨.Success, c, env⟩

/-- `Client::_saveMode`: fire-and-forget `SAVE_MODE`. -/
def _saveMode (c : ClientState) (env : SocketEnv) (_device : Device)
    (_mode : Mode) : OpResult :=
  if !c.connected then ⟨.NotConnected, c, env⟩
  else
    let (ok, env) := sendMessage SAVE_MODE env
    if !ok then ⟨.SendRequestFailed, c, env⟩
    else ⟨.Success, c, env⟩

/-- `Client::_setDeviceColor`: fire-and-forget `UPDATE_LEDS` with the color
repeated over the device's LEDs. -/
def _setDeviceColor (c : ClientState) (env : SocketEnv) (_device : Device) :
    OpResult :=
  if !c.connected then ⟨.NotConnected, c, env⟩
  else
    let (ok, env) := sendMessage UPDATE_LEDS env
    if !ok then ⟨.SendRequestFailed, c, env⟩
    else ⟨.Success, c, env⟩

/-- `Client::_setZoneColor`: fire-and-forget `UPDATE_ZONE_LEDS` with the
color repeated over the zone's LEDs. -/
def _setZoneColor (c : ClientState) (env : SocketEnv) (_zone : Zone) :
    OpResult :=
  if !c.connected then ⟨.NotConnected, c, env⟩
  else
    let (ok, env) := sendMessage UPDATE_ZONE_LEDS env
    if !ok then ⟨.SendRequestFailed, c, env⟩
    else ⟨.Success, c, env⟩

/-- `Client::_setZoneSize`: fire-and-forget `RESIZE_ZONE`. -/
def _setZoneSize (c : ClientState) (env : SocketEnv) (_zone : Zone)
    (_newSize : Nat) : OpResult :=
  if !c.connected then ⟨.NotConnected, c, env⟩
  else
    let (ok, env) := sendMessage RESIZE_ZONE env
    if !ok then ⟨.SendRequestFailed, c, env⟩
    else ⟨.Success, c, env⟩

/-- `Client::_setLEDColor`: fire-and-forget `UPDATE_SINGLE_LED`. -/
def _setLEDColor (c : ClientState) (env : SocketEnv) (_led : LED) : OpResult :=
  if !c.connected then ⟨.NotConnected, c, env⟩
  else
    let (ok, env) := sendMessage UPDATE_SINGLE_LED env
    if !ok then ⟨.SendRequestFailed, c, env⟩
    else ⟨.Success, c, env⟩

/-- `Client::_requestProfileList`. -/
def _requestProfileList (c : ClientState) (env : SocketEnv) : ProfilesResult :=
  if !c.connected then ⟨.NotConnected, [], c, env⟩
  else
    let (ok, env) := sendMessage REQUEST_PROFILE_LIST env
    if !ok then ⟨.SendRequestFailed, [], c, env⟩
    else
      let r := awaitMessage REPLY_PROFILE_LIST decodeProfileList c env
      if r.status ≠ .Success then ⟨r.status, [], r.state, r.env⟩
      else ⟨.Success, r.message.getD [], r.state, r.env⟩

/-- `Client::_saveProfile`: fire-and-forget `REQUEST_SAVE_PROFILE`. -/
def _saveProfile (c : ClientState) (env : SocketEnv) (_profileName : String) :
    OpResult :=
  if !c.connected then ⟨.NotConnected, c, env⟩
  else
    let (ok, env) := sendMessage REQUEST_SAVE_PROFILE env
    if !ok then ⟨.SendRequestFailed, c, env⟩
    else ⟨.Success, c, env⟩

/-- `Client::_loadProfile`: fire-and-forget `REQUEST_LOAD_PROFILE`. -/
def _loadProfile (c : ClientState) (env : SocketEnv) (_profileName : String) :
    OpResult :=
  if !c.connected then ⟨.NotConnected, c, env⟩
  else
    let (ok, env) := sendMessage REQUEST_LOAD_PROFILE env
    if !ok then ⟨.SendRequestFailed, c, env⟩
    else ⟨.Success, c, env⟩

/-- `Client::_deleteProfile`.  Note: as in the source, the message sent is
`sendMessage<RequestLoadProfile>(profileName)` — the `REQUEST_LOAD_PROFILE`
message type, not a delete type. -/
def _deleteProfile (c : ClientState) (env : SocketEnv) (_profileName : String) :
    OpResult :=
  if !c.connected then ⟨.NotConnected, c, env⟩
  else
    let (ok, env) := sendMessage REQUEST_LOAD_PROFILE env
    if !ok then ⟨.SendRequestFailed, c, env⟩
    else ⟨.Success, c, env⟩

/-! The public API delegates to the functions above; its `noexcept` wrappers
only add a catch-all for C++ exceptions, which do not arise in this
embedding, so each public operation equals its implementation function. -/

def connect (c : ClientState) (env : SocketEnv) : ConnectResult :=
  _connect c env

def disconnect (c : ClientState) : Bool × ClientState :=
  _disconnect c

def setTimeout (c : ClientState) (env : SocketEnv) : TimeoutResult :=
  _setTimeout c env

def requestDeviceList (c : ClientState) (env : SocketEnv) : ListResult :=
  _requestDeviceList c env

def requestDeviceCount (c : ClientState) (env : SocketEnv) : CountResult :=
  _requestDeviceCount c env

def requestDeviceInfo (c : ClientState) (env : SocketEnv) (deviceIdx : Nat) :
    InfoResult :=
  _requestDeviceInfo c env deviceIdx

def checkForDeviceUpdates (c : ClientState) (env : SocketEnv) : UpdateResult :=
  _checkForDeviceUpdates c env

def switchToCustomMode (c : ClientState) (env : SocketEnv) (device : Device) :
    OpResult :=
  _switchToCustomMode c env device

def changeMode (c : ClientState) (env : SocketEnv) (device : Device)
    (mode : Mode) : OpResult :=
  _changeMode c env device mode

def saveMode (c : ClientState) (env : SocketEnv) (device : Device)
    (mode : Mode) : OpResult :=
  _saveMode c env device mode

def setDeviceColor (c : ClientState) (env : SocketEnv) (device : Device) :
    OpResult :=
  _setDeviceColor c env device

def setZoneColor (c : ClientState) (env : SocketEnv) (zone : Zone) : OpResult :=
  _setZoneColor c env zone

def setZoneSize (c : ClientState) (env : SocketEnv) (zone : Zone)
    (newSize : Nat) : OpResult :=
  _setZoneSize c env zone newSize

def setLEDColor (c : ClientState) (env : SocketEnv) (led : LED) : OpResult :=
  _setLEDColor c env led

def requestProfileList (c : ClientState) (env : SocketEnv) : ProfilesResult :=
  _requestProfileList c env

def saveProfile (c : ClientState) (env : SocketEnv) (profileName : String) :
    OpResult :=
  _saveProfile c env profileName

def loadProfile (c : ClientState) (env : SocketEnv) (profileName : String) :
    OpResult :=
  _loadProfile c env profileName

def deleteProfile (c : ClientState) (env : SocketEnv) (profileName : String) :
    OpResult :=
  _deleteProfile c env profileName

end Client

/-! ## Inbound frame builders used by the theorems -/

/-- A `DEVICE_LIST_UPDATED` notification frame: a bare header with body
size 0 (the notification carries no body). -/
def notifFrame : SockRecv := .success (mkHeader 0 DEVICE_LIST_UPDATED 0)

/-- The two receive results of one `REPLY_CONTROLLER_COUNT` exchange: the
header and a `u32` body holding `n`. -/
def countFrames (n : Nat) : List SockRecv :=
  [.success (mkHeader 0 REPLY_CONTROLLER_COUNT 4), .success (u32le n)]

/-- The two receive results of one `REPLY_CONTROLLER_DATA` exchange: the
header and a size-prefixed device record `d`. -/
def deviceFrames (d : List Nat) : List SockRecv :=
  [.success (mkHeader 0 REPLY_CONTROLLER_DATA (4 + d.length)),
   .success (u32le d.length ++ d)]

/-- The receive results of a run of `REPLY_CONTROLLER_DATA` exchanges. -/
def devicesFrames : List (List Nat) → List SockRecv
  | [] => []
  | d :: ds => deviceFrames d ++ devicesFrames ds

/-- What it means for a status-returning operation to be fire-and-forget on a
given starting environment: it reads nothing and toggles nothing, consumes
exactly one send result, logs exactly one outbound message of the given
type, succeeds exactly when the send succeeded, and reports
`SendRequestFailed` otherwise. -/
def sendsExactlyOne (msgType : Nat) (env : SocketEnv) (r : OpResult) : Prop :=
  r.env.recvs = env.recvs ∧
  r.env.sends = env.sends.tail ∧
  r.env.blocks = env.blocks ∧
  r.env.sentLog = env.sentLog ++ [msgType] ∧
  (r.status = .Success ↔ env.sends.headD false = true) ∧
  (env.sends.headD false = false → r.status = .SendRequestFailed)

/-! ## Codec lemmas -/

theorem readU32LE_u32le (n : Nat) :
    readU32LE (n % 256) (n / 256 % 256) (n / 65536 % 256) (n / 16777216 % 256) =
      n % 4294967296 := by
  simp only [readU32LE]
  omega

theorem Header.deserialize_mkHeader (dev ty sz : Nat) :
    Header.deserialize (mkHeader dev ty sz) =
      some ⟨dev % 4294967296, ty % 4294967296, sz % 4294967296⟩ := by
  simp [mkHeader, u32le, magicORGB, Header.deserialize, readU32LE_u32le]

theorem decodeU32Body_u32le (n : Nat) :
    decodeU32Body (u32le n) = some (n % 4294967296) := by
  simp [decodeU32Body, u32le, readU32LE_u32le]

theorem decodeControllerData_framed (d : List Nat) (h : d.length < 4294967296) :
    decodeControllerData (u32le d.length ++ d) = some d := by
  simp [decodeControllerData, u32le, readU32LE_u32le, Nat.mod_eq_of_lt h]

/-! ## `awaitLoop` lemmas -/

/-- Passing over `n` notification frames only turns the out-of-date flag on
(when `n > 0`) and continues with the rest of the stream. -/
theorem awaitLoop_notifs (α : Type) (dec : List Nat → Option α) (T : Nat)
    (n : Nat) (b : Bool) (tail : List SockRecv) :
    awaitLoop T dec b (List.replicate n notifFrame ++ tail) =
      awaitLoop T dec (b || decide (0 < n)) tail := by
  induction n generalizing b with
  | zero => simp
  | succ n ih =>
      rw [List.replicate_succ, List.cons_append]
      have h1 : awaitLoop T dec b (notifFrame :: (List.replicate n notifFrame ++ tail)) =
          awaitLoop T dec true (List.replicate n notifFrame ++ tail) := by
        simp only [notifFrame, awaitLoop, Header.deserialize_mkHeader]
        norm_num [DEVICE_LIST_UPDATED]
      rw [h1, ih true]
      simp

/-- A frame of the expected type followed by a decodable body yields
`Success` with the decoded message, leaving the flag alone. -/
theorem awaitLoop_expected (α : Type) (dec : List Nat → Option α) (v : α)
    (T : Nat) (hT : T < 4294967296) (hTD : T ≠ DEVICE_LIST_UPDATED)
    (b : Bool) (dev sz : Nat) (body : List Nat) (hdec : dec body = some v)
    (rest : List SockRecv) :
    awaitLoop T dec b (.success (mkHeader dev T sz) :: .success body :: rest) =
      (.Success, some v, b, rest) := by
  simp [awaitLoop, Header.deserialize_mkHeader, Nat.mod_eq_of_lt hT, hTD, hdec]

/-- A valid frame that is neither a notification nor of the expected type
yields `InvalidReply` at once. -/
theorem awaitLoop_other (α : Type) (dec : List Nat → Option α)
    (T t : Nat) (ht : t < 4294967296) (htD : t ≠ DEVICE_LIST_UPDATED)
    (htT : t ≠ T) (b : Bool) (dev sz : Nat) (rest : List SockRecv) :
    awaitLoop T dec b (.success (mkHeader dev t sz) :: rest) =
      (.InvalidReply, none, b, rest) := by
  simp [awaitLoop, Header.deserialize_mkHeader, Nat.mod_eq_of_lt ht, htD, htT]

/-! ## Device-list sweep lemmas -/

/-- Fetching a clean run of device records appends exactly those records and
consumes exactly their frames and sends, leaving the client state alone. -/
theorem deviceLoop_clean (ds : List (List Nat))
    (hds : ∀ d ∈ ds, d.length < 4294967296)
    (acc : List (List Nat)) (c : ClientState)
    (rest : List SockRecv) (sends' : List Bool)
    (bl tm : List Bool) (cn : List SockConnect) (log : List Nat) :
    Client.deviceLoop ds.length acc c
        ⟨devicesFrames ds ++ rest, List.replicate ds.length true ++ sends',
          bl, tm, cn, log⟩ =
      (.Success, acc ++ ds, c,
        ⟨rest, sends', bl, tm, cn,
          log ++ List.replicate ds.length REQUEST_CONTROLLER_DATA⟩) := by
  induction ds generalizing acc log with
  | nil => simp [Client.deviceLoop, devicesFrames]
  | cons d ds ih =>
      have hd : d.length < 4294967296 := hds d (List.mem_cons_self d ds)
      have hds' : ∀ x ∈ ds, x.length < 4294967296 :=
        fun x hx => hds x (List.mem_cons_of_mem d hx)
      have hawait := awaitLoop_expected (List Nat) decodeControllerData d
        REPLY_CONTROLLER_DATA (by decide) (by decide) c.outOfDate 0
        (4 + d.length) (u32le d.length ++ d)
        (decodeControllerData_framed d hd) (devicesFrames ds ++ rest)
      simp only [devicesFrames, deviceFrames, List.length_cons,
        List.replicate_succ, List.cons_append, List.append_assoc]
      simp [Client.deviceLoop, sendMessage, awaitMessage, hawait, ih hds',
        List.replicate_succ]

/-- A sweep whose inbound frames are a count reply followed by that many
clean device replies succeeds with exactly those devices, the bit clear. -/
theorem deviceListSweep_clean (ds : List (List Nat))
    (hds : ∀ d ∈ ds, d.length < 4294967296) (hlen : ds.length < 4294967296)
    (c : ClientState) (rest : List SockRecv) (sends' : List Bool)
    (bl tm : List Bool) (cn : List SockConnect) (log : List Nat) :
    Client.deviceListSweep c
        ⟨countFrames ds.length ++ (devicesFrames ds ++ rest),
          true :: (List.replicate ds.length true ++ sends'), bl, tm, cn, log⟩ =
      (.Success, ds, { c with outOfDate := false },
        ⟨rest, sends', bl, tm, cn,
          (log ++ [REQUEST_CONTROLLER_COUNT]) ++
            List.replicate ds.length REQUEST_CONTROLLER_DATA⟩) := by
  have hawait := awaitLoop_expected Nat decodeU32Body ds.length
    REPLY_CONTROLLER_COUNT (by decide) (by decide) false 0 4 (u32le ds.length)
    (by rw [decodeU32Body_u32le, Nat.mod_eq_of_lt hlen])
    (devicesFrames ds ++ rest)
  have hdl := deviceLoop_clean ds hds [] { c with outOfDate := false }
    rest sends' bl tm cn (log ++ [REQUEST_CONTROLLER_COUNT])
  simp [Client.deviceListSweep, sendMessage, awaitMessage, countFrames,
    hawait, hdl]

/-- A sweep that meets one `DEVICE_LIST_UPDATED` notification right before
the count reply still downloads every record of the sweep, but ends with the
out-of-date bit set again. -/
theorem deviceListSweep_notif (ds : List (List Nat))
    (hds : ∀ d ∈ ds, d.length < 4294967296) (hlen : ds.length < 4294967296)
    (c : ClientState) (rest : List SockRecv) (sends' : List Bool)
    (bl tm : List Bool) (cn : List SockConnect) (log : List Nat) :
    Client.deviceListSweep c
        ⟨notifFrame :: (countFrames ds.length ++ (devicesFrames ds ++ rest)),
          true :: (List.replicate ds.length true ++ sends'), bl, tm, cn, log⟩ =
      (.Success, ds, { c with outOfDate := true },
        ⟨rest, sends', bl, tm, cn,
          (log ++ [REQUEST_CONTROLLER_COUNT]) ++
            List.replicate ds.length REQUEST_CONTROLLER_DATA⟩) := by
  have hawait := awaitLoop_expected Nat decodeU32Body ds.length
    REPLY_CONTROLLER_COUNT (by decide) (by decide) true 0 4 (u32le ds.length)
    (by rw [decodeU32Body_u32le, Nat.mod_eq_of_lt hlen])
    (devicesFrames ds ++ rest)
  have hnotif := awaitLoop_notifs Nat decodeU32Body REPLY_CONTROLLER_COUNT 1
    false (countFrames ds.length ++ (devicesFrames ds ++ rest))
  have hdl := deviceLoop_clean ds hds [] { c with outOfDate := true }
    rest sends' bl tm cn (log ++ [REQUEST_CONTROLLER_COUNT])
  simp only [List.replicate_one, List.singleton_append, countFrames,
    List.cons_append, List.nil_append,
    show (false || decide (0 < 1)) = true from rfl] at hnotif
  have hfull := hnotif.trans hawait
  simp [Client.deviceListSweep, sendMessage, awaitMessage, countFrames,
    hfull, hdl]

/-! ## `checkForUpdateMessageArrival` lemmas -/

/-- Frame properties of the non-blocking probe: the session's connected flag
only changes on the `CantRestoreSocket` path, an `UnexpectedMessage` return
leaves the socket restored to blocking mode with the header consumed, and
the probe itself never touches the out-of-date bit. -/
theorem checkForUpdateMessageArrival_frame (c : ClientState) (env : SocketEnv) :
    ((Client.checkForUpdateMessageArrival c env).status ≠ .CantRestoreSocket →
      (Client.checkForUpdateMessageArrival c env).state.connected = c.connected) ∧
    ((Client.checkForUpdateMessageArrival c env).status = .UnexpectedMessage →
      (Client.checkForUpdateMessageArrival c env).state.blocking = true ∧
      (Client.checkForUpdateMessageArrival c env).env.recvs = env.recvs.tail) ∧
    (Client.checkForUpdateMessageArrival c env).state.outOfDate = c.outOfDate := by
  obtain ⟨recvs, sends, blocks, timeouts, conns, log⟩ := env
  match blocks, recvs with
  | [], _ =>
      simp [Client.checkForUpdateMessageArrival, setBlockingMode]
  | false :: bl, _ =>
      simp [Client.checkForUpdateMessageArrival, setBlockingMode]
  | true :: bl, recvs =>
    have hleaf : ∀ (s : UpdateStatus) (c1 : ClientState) (env1 : SocketEnv),
        env1.blocks = bl → c1.connected = c.connected →
        c1.outOfDate = c.outOfDate →
        ((Client.enableBlockingAndReturn s c1 env1).status ≠ .CantRestoreSocket →
          (Client.enableBlockingAndReturn s c1 env1).state.connected = c.connected) ∧
        ((Client.enableBlockingAndReturn s c1 env1).status = s ∨
          (Client.enableBlockingAndReturn s c1 env1).status = .CantRestoreSocket) ∧
        ((Client.enableBlockingAndReturn s c1 env1).status ≠ .CantRestoreSocket →
          (Client.enableBlockingAndReturn s c1 env1).state.blocking = true) ∧
        (Client.enableBlockingAndReturn s c1 env1).state.outOfDate = c.outOfDate ∧
        (Client.enableBlockingAndReturn s c1 env1).env.recvs = env1.recvs := by
      intro s c1 env1 hbl hconn hood
      match hb : bl, hbl with
      | [], hbl =>
          simp [Client.enableBlockingAndReturn, setBlockingMode, hbl,
            Client.socketDisconnect, hconn, hood]
      | b2 :: bl2, hbl =>
          cases b2 <;>
            simp [Client.enableBlockingAndReturn, setBlockingMode, hbl,
              Client.socketDisconnect, hconn, hood]
    match recvs with
    | [] =>
        have h := hleaf .OtherSystemError { c with blocking := false }
          ⟨[], sends, bl, timeouts, conns, log⟩ rfl rfl rfl
        simpa [Client.checkForUpdateMessageArrival, setBlockingMode,
          SocketEnv.recvStep] using
            ⟨h.1, fun hs => absurd h.2.1 (by simp [hs]), h.2.2.2.1⟩
    | .success bytes :: rs =>
        cases h3 : Header.deserialize bytes with
        | none =>
            have h := hleaf .UnexpectedMessage { c with blocking := false }
              ⟨rs, sends, bl, timeouts, conns, log⟩ rfl rfl rfl
            simpa [Client.checkForUpdateMessageArrival, setBlockingMode,
              SocketEnv.recvStep, h3] using
                ⟨h.1, fun hs => ⟨h.2.2.1 (by simp [hs]), h.2.2.2.2⟩, h.2.2.2.1⟩
        | some header =>
            by_cases h4 : header.message_type = DEVICE_LIST_UPDATED
            · have h := hleaf .OutOfDate { c with blocking := false }
                ⟨rs, sends, bl, timeouts, conns, log⟩ rfl rfl rfl
              simpa [Client.checkForUpdateMessageArrival, setBlockingMode,
                SocketEnv.recvStep, h3, h4] using
                  ⟨h.1, fun hs => absurd h.2.1 (by simp [hs]), h.2.2.2.1⟩
            · have h := hleaf .UnexpectedMessage { c with blocking := false }
                ⟨rs, sends, bl, timeouts, conns, log⟩ rfl rfl rfl
              simpa [Client.checkForUpdateMessageArrival, setBlockingMode,
                SocketEnv.recvStep, h3, h4] using
                  ⟨h.1, fun hs => ⟨h.2.2.1 (by simp [hs]), h.2.2.2.2⟩, h.2.2.2.1⟩
    | .connectionClosed :: rs =>
        have h := hleaf .ConnectionClosed { c with blocking := false }
          ⟨rs, sends, bl, timeouts, conns, log⟩ rfl rfl rfl
        simpa [Client.checkForUpdateMessageArrival, setBlockingMode,
          SocketEnv.recvStep] using
            ⟨h.1, fun hs => absurd h.2.1 (by simp [hs]), h.2.2.2.1⟩
    | .timeout :: rs =>
        have h := hleaf .OtherSystemError { c with blocking := false }
          ⟨rs, sends, bl, timeouts, conns, log⟩ rfl rfl rfl
        simpa [Client.checkForUpdateMessageArrival, setBlockingMode,
          SocketEnv.recvStep] using
            ⟨h.1, fun hs => absurd h.2.1 (by simp [hs]), h.2.2.2.1⟩
    | .wouldBlock :: rs =>
        have h := hleaf .UpToDate { c with blocking := false }
          ⟨rs, sends, bl, timeouts, conns, log⟩ rfl rfl rfl
        simpa [Client.checkForUpdateMessageArrival, setBlockingMode,
          SocketEnv.recvStep] using
            ⟨h.1, fun hs => absurd h.2.1 (by simp [hs]), h.2.2.2.1⟩
    | .otherError :: rs =>
        have h := hleaf .OtherSystemError { c with blocking := false }
          ⟨rs, sends, bl, timeouts, conns, log⟩ rfl rfl rfl
        simpa [Client.checkForUpdateMessageArrival, setBlockingMode,
          SocketEnv.recvStep] using
            ⟨h.1, fun hs => absurd h.2.1 (by simp [hs]), h.2.2.2.1⟩

/-! ## Claim theorems -/

/-- Claim C4: whenever the out-of-date bit is set, `checkForDeviceUpdates`
returns `OutOfDate` without performing any socket operation and leaves the
client state and the socket environment untouched. -/
theorem checkForDeviceUpdates_bit_set_no_io (c : ClientState) (env : SocketEnv)
    (h : c.outOfDate = true) :
    Client.checkForDeviceUpdates c env = ⟨.OutOfDate, c, env⟩ := by
  simp [Client.checkForDeviceUpdates, Client._checkForDeviceUpdates, h]

/-- Witness for C4 at a concrete connected client and a non-trivial
environment. -/
theorem checkForDeviceUpdates_bit_set_no_io_witness :
    Client.checkForDeviceUpdates ⟨true, true, true, 3⟩
        ⟨[.wouldBlock], [true], [true, true], [true], [], []⟩ =
      ⟨.OutOfDate, ⟨true, true, true, 3⟩,
        ⟨[.wouldBlock], [true], [true, true], [true], [], []⟩⟩ :=
  checkForDeviceUpdates_bit_set_no_io ⟨true, true, true, 3⟩
    ⟨[.wouldBlock], [true], [true, true], [true], [], []⟩ rfl

/-- Claim C1: for every expected reply type, when the inbound stream delivers
any number of `DEVICE_LIST_UPDATED` frames followed by a frame of the
expected type, `awaitMessage` sets the out-of-date bit once per notification
(the boolean bit ends set exactly when it was set before or at least one
notification arrived), consumes no body for the notifications (exactly the
`n` notification headers, one reply header and one reply body are consumed
from the stream), and returns the decoded reply with status `Success`; and
when the first non-notification frame carries any other valid type it
returns `InvalidReply`. -/
theorem awaitMessage_notification_passthrough
    (α : Type) (dec : List Nat → Option α) (v : α) (T : Nat)
    (hT : T < 4294967296) (hTD : T ≠ DEVICE_LIST_UPDATED)
    (n dev sz : Nat) (body : List Nat) (hdec : dec body = some v)
    (c : ClientState) (env : SocketEnv) (rest : List SockRecv)
    (henv : env.recvs =
      List.replicate n notifFrame ++
        (.success (mkHeader dev T sz) :: .success body :: rest)) :
    (awaitMessage T dec c env).status = .Success ∧
    (awaitMessage T dec c env).message = some v ∧
    (awaitMessage T dec c env).state =
      { c with outOfDate := c.outOfDate || decide (0 < n) } ∧
    (awaitMessage T dec c env).env = { env with recvs := rest } ∧
    (∀ t, t < 4294967296 → t ≠ DEVICE_LIST_UPDATED → t ≠ T →
      ∀ env2 : SocketEnv, env2.recvs =
          List.replicate n notifFrame ++ (.success (mkHeader dev t sz) :: rest) →
        (awaitMessage T dec c env2).status = .InvalidReply) := by
  have hmain : awaitLoop T dec c.outOfDate env.recvs =
      (.Success, some v, c.outOfDate || decide (0 < n), rest) := by
    rw [henv, awaitLoop_notifs,
      awaitLoop_expected α dec v T hT hTD _ dev sz body hdec rest]
  refine ⟨?_, ?_, ?_, ?_, ?_⟩
  · simp [awaitMessage, hmain]
  · simp [awaitMessage, hmain]
  · simp [awaitMessage, hmain]
  · simp [awaitMessage, hmain]
  · intro t ht htD htT env2 henv2
    have h2 : awaitLoop T dec c.outOfDate env2.recvs =
        (.InvalidReply, none, c.outOfDate || decide (0 < n), rest) := by
      rw [henv2, awaitLoop_notifs, awaitLoop_other α dec T t ht htD htT]
    simp [awaitMessage, h2]

/-- Witness for C1: two notifications in front of a `REPLY_PROTOCOL_VERSION`
reply whose body decodes to 7. -/
theorem awaitMessage_notification_passthrough_witness :
    (awaitMessage REPLY_PROTOCOL_VERSION decodeU32Body ⟨true, true, false, 3⟩
        ⟨List.replicate 2 notifFrame ++
          (.success (mkHeader 5 REPLY_PROTOCOL_VERSION 4) ::
            .success (u32le 7) :: []),
         [], [], [], [], []⟩).status = .Success ∧
    (awaitMessage REPLY_PROTOCOL_VERSION decodeU32Body ⟨true, true, false, 3⟩
        ⟨List.replicate 2 notifFrame ++
          (.success (mkHeader 5 REPLY_PROTOCOL_VERSION 4) ::
            .success (u32le 7) :: []),
         [], [], [], [], []⟩).message = some 7 := by
  have h := awaitMessage_notification_passthrough Nat decodeU32Body 7
    REPLY_PROTOCOL_VERSION (by decide) (by decide) 2 5 4 (u32le 7) (by decide)
    ⟨true, true, false, 3⟩
    ⟨List.replicate 2 notifFrame ++
      (.success (mkHeader 5 REPLY_PROTOCOL_VERSION 4) ::
        .success (u32le 7) :: []),
     [], [], [], [], []⟩ [] rfl
  exact ⟨h.1, h.2.1⟩

/-- Claim C3: when the out-of-date bit is clear and the non-blocking probe of
`checkForDeviceUpdates` reaches its header read (both blocking-mode switches
succeed), the receive result maps to the returned status exactly as claimed:
`WouldBlock` to `UpToDate`, `ConnectionClosed` to `ConnectionClosed`, any
other receive failure to the other-error status, a header of type
`DEVICE_LIST_UPDATED` to `OutOfDate` (setting the bit), and any other valid
header to `UnexpectedMessage`. -/
theorem checkForDeviceUpdates_read_mapping
    (c : ClientState) (env : SocketEnv) (bs : List Bool)
    (hood : c.outOfDate = false) (hbl : env.blocks = true :: true :: bs) :
    (env.recvs.headD .otherError = .wouldBlock →
        (Client.checkForDeviceUpdates c env).status = .UpToDate) ∧
    (env.recvs.headD .otherError = .connectionClosed →
        (Client.checkForDeviceUpdates c env).status = .ConnectionClosed) ∧
    ((env.recvs.headD .otherError = .timeout ∨
        env.recvs.headD .otherError = .otherError) →
        (Client.checkForDeviceUpdates c env).status = .OtherSystemError) ∧
    (∀ bytes header, env.recvs.headD .otherError = .success bytes →
        Header.deserialize bytes = some header →
        (header.message_type = DEVICE_LIST_UPDATED →
          (Client.checkForDeviceUpdates c env).status = .OutOfDate ∧
          (Client.checkForDeviceUpdates c env).state.outOfDate = true) ∧
        (header.message_type ≠ DEVICE_LIST_UPDATED →
          (Client.checkForDeviceUpdates c env).status = .UnexpectedMessage)) := by
  obtain ⟨recvs, sends, blocks, timeouts, conns, log⟩ := env
  simp only at hbl
  subst hbl
  refine ⟨?_, ?_, ?_, ?_⟩
  · intro h2
    match recvs, h2 with
    | .wouldBlock :: rs, _ =>
      simp [Client.checkForDeviceUpdates, Client._checkForDeviceUpdates,
        Client.checkForUpdateMessageArrival, Client.enableBlockingAndReturn,
        setBlockingMode, SocketEnv.recvStep, hood]
  · intro h2
    match recvs, h2 with
    | .connectionClosed :: rs, _ =>
      simp [Client.checkForDeviceUpdates, Client._checkForDeviceUpdates,
        Client.checkForUpdateMessageArrival, Client.enableBlockingAndReturn,
        setBlockingMode, SocketEnv.recvStep, hood]
  · intro h2
    match recvs, h2 with
    | [], _ =>
      simp [Client.checkForDeviceUpdates, Client._checkForDeviceUpdates,
        Client.checkForUpdateMessageArrival, Client.enableBlockingAndReturn,
        setBlockingMode, SocketEnv.recvStep, hood]
    | .timeout :: rs, _ =>
      simp [Client.checkForDeviceUpdates, Client._checkForDeviceUpdates,
        Client.checkForUpdateMessageArrival, Client.enableBlockingAndReturn,
        setBlockingMode, SocketEnv.recvStep, hood]
    | .otherError :: rs, _ =>
      simp [Client.checkForDeviceUpdates, Client._checkForDeviceUpdates,
        Client.checkForUpdateMessageArrival, Client.enableBlockingAndReturn,
        setBlockingMode, SocketEnv.recvStep, hood]
  · intro bytes header h2 h3
    match recvs, h2 with
    | .success bytes0 :: rs, h2 =>
      have hb : bytes0 = bytes := by simpa using h2
      subst hb
      constructor
      · intro hty
        constructor <;>
          simp [Client.checkForDeviceUpdates, Client._checkForDeviceUpdates,
            Client.checkForUpdateMessageArrival, Client.enableBlockingAndReturn,
            setBlockingMode, SocketEnv.recvStep, hood, h3, hty]
      · intro hty
        simp [Client.checkForDeviceUpdates, Client._checkForDeviceUpdates,
          Client.checkForUpdateMessageArrival, Client.enableBlockingAndReturn,
          setBlockingMode, SocketEnv.recvStep, hood, h3, hty]

/-- Witness for C3: a clear bit, both mode switches succeeding, and a pending
`DEVICE_LIST_UPDATED` notification frame yield `OutOfDate` with the bit set. -/
theorem checkForDeviceUpdates_read_mapping_witness :
    (Client.checkForDeviceUpdates ⟨true, true, false, 3⟩
        ⟨[.success (mkHeader 0 DEVICE_LIST_UPDATED 0)], [], [true, true], [],
          [], []⟩).status = .OutOfDate ∧
    (Client.checkForDeviceUpdates ⟨true, true, false, 3⟩
        ⟨[.success (mkHeader 0 DEVICE_LIST_UPDATED 0)], [], [true, true], [],
          [], []⟩).state.outOfDate = true := by
  have h := checkForDeviceUpdates_read_mapping ⟨true, true, false, 3⟩
    ⟨[.success (mkHeader 0 DEVICE_LIST_UPDATED 0)], [], [true, true], [], [], []⟩
    [] rfl rfl
  exact (h.2.2.2 (mkHeader 0 DEVICE_LIST_UPDATED 0)
    ⟨0, DEVICE_LIST_UPDATED, 0⟩ rfl (by decide)).1 rfl

/-- Claim C10: when `checkForDeviceUpdates` returns `UnexpectedMessage` the
client does not disconnect — the connected flag and the out-of-date bit are
unchanged and the socket is back in blocking mode — even though the 16
header bytes have been consumed from the inbound stream; and the only return
path that flips the connected flag is `CantRestoreSocket`. -/
theorem checkForDeviceUpdates_unexpected_keeps_session
    (c : ClientState) (env : SocketEnv) :
    ((Client.checkForDeviceUpdates c env).status = .UnexpectedMessage →
      (Client.checkForDeviceUpdates c env).state.connected = c.connected ∧
      (Client.checkForDeviceUpdates c env).state.outOfDate = c.outOfDate ∧
      (Client.checkForDeviceUpdates c env).state.blocking = true ∧
      (Client.checkForDeviceUpdates c env).env.recvs = env.recvs.tail) ∧
    ((Client.checkForDeviceUpdates c env).status ≠ .CantRestoreSocket →
      (Client.checkForDeviceUpdates c env).state.connected = c.connected) := by
  have h := checkForUpdateMessageArrival_frame c env
  by_cases hood : c.outOfDate = true
  · constructor
    · intro hs
      simp [Client.checkForDeviceUpdates, Client._checkForDeviceUpdates,
        hood] at hs
    · intro _
      simp [Client.checkForDeviceUpdates, Client._checkForDeviceUpdates, hood]
  · have hood' : c.outOfDate = false := by simpa using hood
    by_cases hr : (Client.checkForUpdateMessageArrival c env).status = .OutOfDate
    · constructor
      · intro hs
        simp [Client.checkForDeviceUpdates, Client._checkForDeviceUpdates,
          hood', hr] at hs
      · intro _
        have hc := h.1 (by simp [hr])
        simp [Client.checkForDeviceUpdates, Client._checkForDeviceUpdates,
          hood', hr, hc]
    · have heq : Client.checkForDeviceUpdates c env =
          Client.checkForUpdateMessageArrival c env := by
        simp [Client.checkForDeviceUpdates, Client._checkForDeviceUpdates,
          hood', hr]
      rw [heq]
      exact ⟨fun hs => ⟨h.1 (by simp [hs]), h.2.2, (h.2.1 hs).1, (h.2.1 hs).2⟩,
        h.1⟩

/-- Witness for C10: a valid non-notification header
(`REQUEST_PROTOCOL_VERSION`) pending on the probe leaves the session
connected, blocking, and with the header frame consumed. -/
theorem checkForDeviceUpdates_unexpected_keeps_session_witness :
    (Client.checkForDeviceUpdates ⟨true, true, false, 3⟩
        ⟨[.success (mkHeader 0 REQUEST_PROTOCOL_VERSION 0)], [], [true, true],
          [], [], []⟩).state.connected = true ∧
    (Client.checkForDeviceUpdates ⟨true, true, false, 3⟩
        ⟨[.success (mkHeader 0 REQUEST_PROTOCOL_VERSION 0)], [], [true, true],
          [], [], []⟩).state.blocking = true ∧
    (Client.checkForDeviceUpdates ⟨true, true, false, 3⟩
        ⟨[.success (mkHeader 0 REQUEST_PROTOCOL_VERSION 0)], [], [true, true],
          [], [], []⟩).env.recvs = [] := by
  have h := checkForDeviceUpdates_unexpected_keeps_session ⟨true, true, false, 3⟩
    ⟨[.success (mkHeader 0 REQUEST_PROTOCOL_VERSION 0)], [], [true, true],
      [], [], []⟩
  have hu := h.1 (by decide)
  exact ⟨hu.1, hu.2.2.1, hu.2.2.2⟩

/-- Claim C2: on a connected session (whatever the out-of-date bit held
before), a `requestDeviceList` whose first sweep is interrupted by a
`DEVICE_LIST_UPDATED` notification discards everything downloaded in that
sweep and restarts from the count phase — the bit is cleared at the start of
each sweep attempt — and on `Success` returns exactly the devices of the
final sweep, the one during which the bit stayed clear. -/
theorem requestDeviceList_sweep_restart
    (ds1 ds2 : List (List Nat))
    (hds1 : ∀ d ∈ ds1, d.length < 4294967296)
    (hds2 : ∀ d ∈ ds2, d.length < 4294967296)
    (hlen1 : ds1.length < 4294967296) (hlen2 : ds2.length < 4294967296)
    (c : ClientState) (hconn : c.connected = true)
    (bl tm : List Bool) (cn : List SockConnect) (log : List Nat) :
    Client.requestDeviceList c
        ⟨notifFrame :: (countFrames ds1.length ++ (devicesFrames ds1 ++
            (countFrames ds2.length ++ (devicesFrames ds2 ++ [])))),
          true :: (List.replicate ds1.length true ++
            (true :: (List.replicate ds2.length true ++ []))),
          bl, tm, cn, log⟩ =
      ⟨.Success, ds2, { c with outOfDate := false },
        ⟨[], [], bl, tm, cn,
          ((((log ++ [REQUEST_CONTROLLER_COUNT]) ++
              List.replicate ds1.length REQUEST_CONTROLLER_DATA) ++
            [REQUEST_CONTROLLER_COUNT]) ++
            List.replicate ds2.length REQUEST_CONTROLLER_DATA)⟩⟩ := by
  have hsweep1 := deviceListSweep_notif ds1 hds1 hlen1 c
    (countFrames ds2.length ++ (devicesFrames ds2 ++ []))
    (true :: (List.replicate ds2.length true ++ [])) bl tm cn log
  have hsweep2 := deviceListSweep_clean ds2 hds2 hlen2
    { c with outOfDate := true } [] [] bl tm cn
    ((log ++ [REQUEST_CONTROLLER_COUNT]) ++
      List.replicate ds1.length REQUEST_CONTROLLER_DATA)
  simp only [List.append_nil, List.append_assoc, List.singleton_append, hconn]
    at hsweep1 hsweep2
  simp only [Client.requestDeviceList, Client._requestDeviceList, hconn,
    Bool.not_true, Bool.false_eq_true, if_false, List.length_cons]
  simp [Client.deviceListLoop, hsweep1, hsweep2, hconn]

/-- Witness for C2: the bit initially set, a first sweep of one device
interrupted by a notification, a final sweep of two devices; exactly those
two device records come back and the bit ends cleared. -/
theorem requestDeviceList_sweep_restart_witness :
    Client.requestDeviceList ⟨true, true, true, 3⟩
        ⟨notifFrame :: (countFrames 1 ++ (devicesFrames [[7]] ++
            (countFrames 2 ++ (devicesFrames [[9], [8]] ++ [])))),
          true :: (List.replicate 1 true ++ (true :: (List.replicate 2 true ++ []))),
          [], [], [], []⟩ =
      ⟨.Success, [[9], [8]], ⟨true, true, false, 3⟩,
        ⟨[], [], [], [], [],
          [REQUEST_CONTROLLER_COUNT, REQUEST_CONTROLLER_DATA,
            REQUEST_CONTROLLER_COUNT, REQUEST_CONTROLLER_DATA,
            REQUEST_CONTROLLER_DATA]⟩⟩ :=
  requestDeviceList_sweep_restart [[7]] [[9], [8]] (by decide) (by decide)
    (by decide) (by decide) ⟨true, true, true, 3⟩ rfl [] [] [] []

/-- Claim C5 (code bug, witnessed): on a connected session `deleteProfile`
sends exactly one message, but that message's type is
`REQUEST_LOAD_PROFILE` — the source reuses the load-profile message type
(`sendMessage<RequestLoadProfile>`) instead of a distinct delete type — so
the claimed `REQUEST_DELETE_PROFILE` send does not happen. -/
theorem deleteProfile_sends_load_profile_type :
    (Client.deleteProfile ⟨true, true, false, 3⟩ ⟨[], [true], [], [], [], []⟩
        "unwanted").env.sentLog = [REQUEST_LOAD_PROFILE] ∧
    (Client.deleteProfile ⟨true, true, false, 3⟩ ⟨[], [true], [], [], [], []⟩
        "unwanted").status = .Success ∧
    REQUEST_LOAD_PROFILE ≠ REQUEST_DELETE_PROFILE := by
  refine ⟨by decide, by decide, by decide⟩

/-- Counterexample to claim C6 as stated: `checkForDeviceUpdates` performs no
connected-state check, so on a disconnected session with a clear out-of-date
bit it does touch the socket (the environment is consumed) and returns
`UpToDate` — not a not-connected status, which its result type does not even
contain. -/
theorem checkForDeviceUpdates_disconnected_touches_socket :
    (Client.checkForDeviceUpdates ⟨false, true, false, 0⟩
        ⟨[.wouldBlock], [], [true, true], [], [], []⟩).status = .UpToDate ∧
    (Client.checkForDeviceUpdates ⟨false, true, false, 0⟩
        ⟨[.wouldBlock], [], [true, true], [], [], []⟩).env ≠
      ⟨[.wouldBlock], [], [true, true], [], [], []⟩ := by
  decide

/-- Claim C6 (amended): every request-performing operation — the four
query operations and the ten mutating operations — checks the connected
state first and, on a disconnected session, returns `NotConnected` without
performing any socket operation; `setTimeout` likewise refuses without
touching the socket but reports failure by returning `false`; the exception
is `checkForDeviceUpdates`, which performs no connected check (see the
counterexample). -/
theorem disconnected_short_circuit :
    (∀ c env, c.connected = false →
      Client.requestDeviceList c env = ⟨.NotConnected, [], c, env⟩) ∧
    (∀ c env, c.connected = false →
      Client.requestDeviceCount c env = ⟨.NotConnected, 0, c, env⟩) ∧
    (∀ c env i, c.connected = false →
      Client.requestDeviceInfo c env i = ⟨.NotConnected, none, c, env⟩) ∧
    (∀ c env, c.connected = false →
      Client.requestProfileList c env = ⟨.NotConnected, [], c, env⟩) ∧
    (∀ c env d, c.connected = false →
      Client.switchToCustomMode c env d = ⟨.NotConnected, c, env⟩) ∧
    (∀ c env d m, c.connected = false →
      Client.changeMode c env d m = ⟨.NotConnected, c, env⟩) ∧
    (∀ c env d m, c.connected = false →
      Client.saveMode c env d m = ⟨.NotConnected, c, env⟩) ∧
    (∀ c env d, c.connected = false →
      Client.setDeviceColor c env d = ⟨.NotConnected, c, env⟩) ∧
    (∀ c env z, c.connected = false →
      Client.setZoneColor c env z = ⟨.NotConnected, c, env⟩) ∧
    (∀ c env z n, c.connected = false →
      Client.setZoneSize c env z n = ⟨.NotConnected, c, env⟩) ∧
    (∀ c env l, c.connected = false →
      Client.setLEDColor c env l = ⟨.NotConnected, c, env⟩) ∧
    (∀ c env p, c.connected = false →
      Client.saveProfile c env p = ⟨.NotConnected, c, env⟩) ∧
    (∀ c env p, c.connected = false →
      Client.loadProfile c env p = ⟨.NotConnected, c, env⟩) ∧
    (∀ c env p, c.connected = false →
      Client.deleteProfile c env p = ⟨.NotConnected, c, env⟩) ∧
    (∀ c env, c.connected = false →
      Client.setTimeout c env = ⟨false, c, env⟩) := by
  refine ⟨?_, ?_, ?_, ?_, ?_, ?_, ?_, ?_, ?_, ?_, ?_, ?_, ?_, ?_, ?_⟩
  · intro c env h
    simp [Client.requestDeviceList, Client._requestDeviceList, h]
  · intro c env h
    simp [Client.requestDeviceCount, Client._requestDeviceCount, h]
  · intro c env i h
    simp [Client.requestDeviceInfo, Client._requestDeviceInfo, h]
  · intro c env h
    simp [Client.requestProfileList, Client._requestProfileList, h]
  · intro c env d h
    simp [Client.switchToCustomMode, Client._switchToCustomMode, h]
  · intro c env d m h
    simp [Client.changeMode, Client._changeMode, h]
  · intro c env d m h
    simp [Client.saveMode, Client._saveMode, h]
  · intro c env d h
    simp [Client.setDeviceColor, Client._setDeviceColor, h]
  · intro c env z h
    simp [Client.setZoneColor, Client._setZoneColor, h]
  · intro c env z n h
    simp [Client.setZoneSize, Client._setZoneSize, h]
  · intro c env l h
    simp [Client.setLEDColor, Client._setLEDColor, h]
  · intro c env p h
    simp [Client.saveProfile, Client._saveProfile, h]
  · intro c env p h
    simp [Client.loadProfile, Client._loadProfile, h]
  · intro c env p h
    simp [Client.deleteProfile, Client._deleteProfile, h]
  · intro c env h
    simp [Client.setTimeout, Client._setTimeout, h]

/-- Witness for amended C6: a fresh (disconnected) client refuses a device
list request and a timeout change without consuming the environment. -/
theorem disconnected_short_circuit_witness :
    Client.requestDeviceList ClientState.init ⟨[], [], [], [], [], []⟩ =
      ⟨.NotConnected, [], ClientState.init, ⟨[], [], [], [], [], []⟩⟩ ∧
    Client.setTimeout ClientState.init ⟨[], [], [], [], [], []⟩ =
      ⟨false, ClientState.init, ⟨[], [], [], [], [], []⟩⟩ :=
  ⟨disconnected_short_circuit.1 ClientState.init ⟨[], [], [], [], [], []⟩ rfl,
    disconnected_short_circuit.2.2.2.2.2.2.2.2.2.2.2.2.2.2
      ClientState.init ⟨[], [], [], [], [], []⟩ rfl⟩

/-- Claim C7: every mutating operation on a connected session is
fire-and-forget — it awaits no reply, sends exactly one message of its
message type, and returns `Success` exactly when the send succeeded,
`SendRequestFailed` otherwise. -/
theorem mutating_fire_and_forget :
    (∀ c env d, c.connected = true →
      sendsExactlyOne SET_CUSTOM_MODE env (Client.switchToCustomMode c env d)) ∧
    (∀ c env d m, c.connected = true →
      sendsExactlyOne UPDATE_MODE env (Client.changeMode c env d m)) ∧
    (∀ c env d m, c.connected = true →
      sendsExactlyOne SAVE_MODE env (Client.saveMode c env d m)) ∧
    (∀ c env d, c.connected = true →
      sendsExactlyOne UPDATE_LEDS env (Client.setDeviceColor c env d)) ∧
    (∀ c env z, c.connected = true →
      sendsExactlyOne UPDATE_ZONE_LEDS env (Client.setZoneColor c env z)) ∧
    (∀ c env z n, c.connected = true →
      sendsExactlyOne RESIZE_ZONE env (Client.setZoneSize c env z n)) ∧
    (∀ c env l, c.connected = true →
      sendsExactlyOne UPDATE_SINGLE_LED env (Client.setLEDColor c env l)) ∧
    (∀ c env p, c.connected = true →
      sendsExactlyOne REQUEST_SAVE_PROFILE env (Client.saveProfile c env p)) ∧
    (∀ c env p, c.connected = true →
      sendsExactlyOne REQUEST_LOAD_PROFILE env (Client.loadProfile c env p)) ∧
    (∀ c env p, c.connected = true →
      sendsExactlyOne REQUEST_LOAD_PROFILE env (Client.deleteProfile c env p)) := by
  refine ⟨?_, ?_, ?_, ?_, ?_, ?_, ?_, ?_, ?_, ?_⟩
  · intro c env d h
    obtain ⟨recvs, sends, blocks, timeouts, conns, log⟩ := env
    cases sends with
    | nil =>
        simp [sendsExactlyOne, Client.switchToCustomMode,
          Client._switchToCustomMode, sendMessage, h]
    | cons s ss =>
        cases s <;>
          simp [sendsExactlyOne, Client.switchToCustomMode,
            Client._switchToCustomMode, sendMessage, h]
  · intro c env d m h
    obtain ⟨recvs, sends, blocks, timeouts, conns, log⟩ := env
    cases sends with
    | nil =>
        simp [sendsExactlyOne, Client.changeMode, Client._changeMode,
          sendMessage, h]
    | cons s ss =>
        cases s <;>
          simp [sendsExactlyOne, Client.changeMode, Client._changeMode,
            sendMessage, h]
  · intro c env d m h
    obtain ⟨recvs, sends, blocks, timeouts, conns, log⟩ := env
    cases sends with
    | nil =>
        simp [sendsExactlyOne, Client.saveMode, Client._saveMode,
          sendMessage, h]
    | cons s ss =>
        cases s <;>
          simp [sendsExactlyOne, Client.saveMode, Client._saveMode,
            sendMessage, h]
  · intro c env d h
    obtain ⟨recvs, sends, blocks, timeouts, conns, log⟩ := env
    cases sends with
    | nil =>
        simp [sendsExactlyOne, Client.setDeviceColor, Client._setDeviceColor,
          sendMessage, h]
    | cons s ss =>
        cases s <;>
          simp [sendsExactlyOne, Client.setDeviceColor, Client._setDeviceColor,
            sendMessage, h]
  · intro c env z h
    obtain ⟨recvs, sends, blocks, timeouts, conns, log⟩ := env
    cases sends with
    | nil =>
        simp [sendsExactlyOne, Client.setZoneColor, Client._setZoneColor,
          sendMessage, h]
    | cons s ss =>
        cases s <;>
          simp [sendsExactlyOne, Client.setZoneColor, Client._setZoneColor,
            sendMessage, h]
  · intro c env z n h
    obtain ⟨recvs, sends, blocks, timeouts, conns, log⟩ := env
    cases sends with
    | nil =>
        simp [sendsExactlyOne, Client.setZoneSize, Client._setZoneSize,
          sendMessage, h]
    | cons s ss =>
        cases s <;>
          simp [sendsExactlyOne, Client.setZoneSize, Client._setZoneSize,
            sendMessage, h]
  · intro c env l h
    obtain ⟨recvs, sends, blocks, timeouts, conns, log⟩ := env
    cases sends with
    | nil =>
        simp [sendsExactlyOne, Client.setLEDColor, Client._setLEDColor,
          sendMessage, h]
    | cons s ss =>
        cases s <;>
          simp [sendsExactlyOne, Client.setLEDColor, Client._setLEDColor,
            sendMessage, h]
  · intro c env p h
    obtain ⟨recvs, sends, blocks, timeouts, conns, log⟩ := env
    cases sends with
    | nil =>
        simp [sendsExactlyOne, Client.saveProfile, Client._saveProfile,
          sendMessage, h]
    | cons s ss =>
        cases s <;>
          simp [sendsExactlyOne, Client.saveProfile, Client._saveProfile,
            sendMessage, h]
  · intro c env p h
    obtain ⟨recvs, sends, blocks, timeouts, conns, log⟩ := env
    cases sends with
    | nil =>
        simp [sendsExactlyOne, Client.loadProfile, Client._loadProfile,
          sendMessage, h]
    | cons s ss =>
        cases s <;>
          simp [sendsExactlyOne, Client.loadProfile, Client._loadProfile,
            sendMessage, h]
  · intro c env p h
    obtain ⟨recvs, sends, blocks, timeouts, conns, log⟩ := env
    cases sends with
    | nil =>
        simp [sendsExactlyOne, Client.deleteProfile, Client._deleteProfile,
          sendMessage, h]
    | cons s ss =>
        cases s <;>
          simp [sendsExactlyOne, Client.deleteProfile, Client._deleteProfile,
            sendMessage, h]

/-- Witness for C7: a single-LED update on a connected session with one
successful send pending. -/
theorem mutating_fire_and_forget_witness :
    sendsExactlyOne UPDATE_SINGLE_LED ⟨[], [true], [], [], [], []⟩
      (Client.setLEDColor ⟨true, true, false, 3⟩ ⟨[], [true], [], [], [], []⟩
        ⟨1, 5⟩) :=
  mutating_fire_and_forget.2.2.2.2.2.2.1 ⟨true, true, false, 3⟩
    ⟨[], [true], [], [], [], []⟩ ⟨1, 5⟩ rfl

/-- Claim C8: when the server's protocol-version reply carries version 0,
`connect` returns `VersionNotSupported` and the socket has been closed
before returning — the client state is exactly what it was before the
call. -/
theorem connect_version_zero_rejected
    (c : ClientState) (hconn : c.connected = false)
    (dev sz : Nat) (t0 : Bool)
    (recvs' : List SockRecv) (sends' timeouts' : List Bool)
    (conns' : List SockConnect) (bl : List Bool) (log : List Nat) :
    Client.connect c
        ⟨.success (mkHeader dev REPLY_PROTOCOL_VERSION sz) ::
            .success (u32le 0) :: recvs',
          true :: sends', bl, t0 :: timeouts', .success :: conns', log⟩ =
      ⟨.VersionNotSupported, c,
        ⟨recvs', sends', bl, timeouts', conns',
          log ++ [REQUEST_PROTOCOL_VERSION]⟩⟩ := by
  obtain ⟨cc, cb, co, cv⟩ := c
  simp only at hconn
  subst hconn
  have hawait := awaitLoop_expected Nat decodeU32Body 0 REPLY_PROTOCOL_VERSION
    (by decide) (by decide) co dev sz (u32le 0) (by decide) recvs'
  simp [Client.connect, Client._connect, SocketEnv.connStep,
    SocketEnv.timeoutStep, sendMessage, awaitMessage, hawait,
    Client.socketDisconnect]

/-- Witness for C8: a fresh client connecting to a server that answers the
version handshake with version 0. -/
theorem connect_version_zero_rejected_witness :
    Client.connect ClientState.init
        ⟨[.success (mkHeader 0 REPLY_PROTOCOL_VERSION 4), .success (u32le 0)],
          [true], [], [true], [.success], []⟩ =
      ⟨.VersionNotSupported, ClientState.init,
        ⟨[], [], [], [], [], [REQUEST_PROTOCOL_VERSION]⟩⟩ :=
  connect_version_zero_rejected ClientState.init rfl 0 4 true [] [] [] [] [] []

/-- Claim C9: a newly constructed client has the out-of-date bit set, so its
first `checkForDeviceUpdates` — before any connect — returns `OutOfDate`
without touching the socket, whatever the socket environment holds. -/
theorem fresh_client_out_of_date :
    ClientState.init.outOfDate = true ∧
      ∀ env : SocketEnv,
        Client.checkForDeviceUpdates ClientState.init env =
          ⟨.OutOfDate, ClientState.init, env⟩ := by
  refine ⟨rfl, fun env => ?_⟩
  simp [Client.checkForDeviceUpdates, Client._checkForDeviceUpdates,
    ClientState.init]

end OpenRGB
